import Mathlib

/-!
Shallow embedding of the input-binding / learning core of
`src/src/main.cpp` (GLFW 2x virtual pad visualizer), together with
theorems about the specified properties of that core.

Machine floats of the source are modelled as rationals; device arrays as
lists; the GLFW polling layer as explicit snapshot records passed in.
-/

set_option autoImplicit false

namespace Padviz

/-- GLFW constant GLFW_KEY_LAST (348): largest valid key code. -/
def glfwKeyLast : Nat := 348

/-- GLFW constant GLFW_JOYSTICK_LAST (15): largest joystick slot id. -/
def glfwJoystickLast : Nat := 15

/-- GLFW constant GLFW_GAMEPAD_BUTTON_LAST (14): largest gamepad button index. -/
def glfwGamepadButtonLast : Nat := 14

/-- GLFW constant GLFW_GAMEPAD_AXIS_LAST (5): largest gamepad axis index. -/
def glfwGamepadAxisLast : Nat := 5

/-- Integer value of the enum tag `BindType::None`. -/
def BT_None : Int := 0

/-- Integer value of the enum tag `BindType::Key`. -/
def BT_Key : Int := 1

/-- Integer value of the enum tag `BindType::GamepadButton`. -/
def BT_GamepadButton : Int := 2

/-- Integer value of the enum tag `BindType::GamepadAxisDir`. -/
def BT_GamepadAxisDir : Int := 3

/-- Integer value of the enum tag `BindType::JoyButton`. -/
def BT_JoyButton : Int := 4

/-- Integer value of the enum tag `BindType::JoyAxisDir`. -/
def BT_JoyAxisDir : Int := 5

/-- The `Binding` struct: tag (as its integer enum value, which is how it is
persisted and cast back on load), joystick id, key/button/axis code,
axis direction, and axis threshold. Field defaults mirror the C++
member initializers of `struct Binding`. -/
structure Binding where
  type : Int := BT_None
  jid : Int := -1
  code : Int := -1
  dir : Int := 0
  threshold : ℚ := 9/20
deriving DecidableEq, Repr

/-- The value of `Binding{}`: all fields at their member initializers. -/
def defaultBinding : Binding := {}

/-- A `GLFWgamepadstate`: 15 buttons (pressed flag) and 6 axes. -/
structure GamepadState where
  buttons : List Bool
  axes : List ℚ
deriving DecidableEq, Repr

/-- The instantaneous OS-level state of one joystick slot, as seen through
the GLFW query functions used by `sampleBinding`: presence, gamepad
mapping availability, the result of `glfwGetGamepadState` (`none` when
the call fails), and the raw button / axis arrays (`none` models a null
pointer result). -/
structure DeviceState where
  present : Bool := false
  isGamepad : Bool := false
  gpState : Option GamepadState := none
  joyButtons : Option (List Bool) := none
  joyAxes : Option (List ℚ) := none
deriving DecidableEq, Repr

/-- The instantaneous device world consulted by `sampleBinding`:
the keyboard down-array `gKeyDown` and the per-slot joystick states. -/
structure World where
  keyDown : Nat → Bool
  joy : Nat → DeviceState

/-- Translation of `sampleBinding` (main.cpp lines 134-180): evaluate a
binding against the current device world into a boolean. -/
def sampleBinding (w : World) (b : Binding) : Bool :=
  if b.type = BT_None then false
  else if b.type = BT_Key then
    if b.code < 0 ∨ b.code > (glfwKeyLast : Int) then false
    else w.keyDown b.code.toNat
  else if b.jid < 0 ∨ b.jid > (glfwJoystickLast : Int) then false
  else
    let dev := w.joy b.jid.toNat
    if dev.present = false then false
    else if b.type = BT_GamepadButton ∨ b.type = BT_GamepadAxisDir then
      if dev.isGamepad = false then false
      else
        match dev.gpState with
        | none => false
        | some st =>
          if b.type = BT_GamepadButton then
            if b.code < 0 ∨ b.code > (glfwGamepadButtonLast : Int) then false
            else st.buttons.getD b.code.toNat false
          else
            if b.code < 0 ∨ b.code > (glfwGamepadAxisLast : Int) then false
            else
              let v := st.axes.getD b.code.toNat 0
              if b.dir < 0 then decide (v < -b.threshold)
              else if b.dir > 0 then decide (v > b.threshold)
              else false
    else if b.type = BT_JoyButton then
      match dev.joyButtons with
      | none => false
      | some btns =>
        if b.code < 0 ∨ b.code ≥ (btns.length : Int) then false
        else btns.getD b.code.toNat false
    else if b.type = BT_JoyAxisDir then
      match dev.joyAxes with
      | none => false
      | some axs =>
        if b.code < 0 ∨ b.code ≥ (axs.length : Int) then false
        else
          let v := axs.getD b.code.toNat 0
          if b.dir < 0 then decide (v < -b.threshold)
          else if b.dir > 0 then decide (v > b.threshold)
          else false
    else false

/-- One entry of the `gJoy` cache array (`struct JoyCache`): double-buffered
raw button/axis arrays and gamepad snapshots used for edge detection. -/
structure JoyCache where
  present : Bool := false
  isGamepad : Bool := false
  name : String := ""
  btnPrev : List Bool := []
  axisPrev : List ℚ := []
  btnCur : List Bool := []
  axisCur : List ℚ := []
  gpPrev : GamepadState := ⟨[], []⟩
  gpCur : GamepadState := ⟨[], []⟩
  gpHasPrev : Bool := false
  gpHasCur : Bool := false
deriving DecidableEq, Repr

/-- What GLFW reports for one joystick slot during `updateJoystickCaches`:
presence, gamepad mapping availability, its name, the raw button/axis
arrays (`none` models a null pointer, which the source copies as an empty
range), and the `glfwGetGamepadState` result. -/
structure JoyPoll where
  present : Bool := false
  isGamepad : Bool := false
  name : String := ""
  rawButtons : Option (List Bool) := none
  rawAxes : Option (List ℚ) := none
  gpState : Option GamepadState := none
deriving DecidableEq, Repr

/-- Translation of the per-slot body of `updateJoystickCaches`
(main.cpp lines 269-313): refresh one `JoyCache` from one polled state. -/
def updateJoyCache (jc : JoyCache) (p : JoyPoll) : JoyCache :=
  if p.present = false then
    { jc with
      present := false
      isGamepad := false
      name := ""
      btnPrev := []
      axisPrev := []
      btnCur := []
      axisCur := []
      gpHasPrev := false
      gpHasCur := false }
  else
    let gp : GamepadState × Bool :=
      if p.isGamepad then
        match p.gpState with
        | some st => (st, true)
        | none => (jc.gpCur, false)
      else (jc.gpCur, false)
    { present := true
      isGamepad := p.isGamepad
      name := p.name
      btnPrev := jc.btnCur
      axisPrev := jc.axisCur
      btnCur := p.rawButtons.getD []
      axisCur := p.rawAxes.getD []
      gpPrev := jc.gpCur
      gpCur := gp.1
      gpHasPrev := jc.gpHasCur
      gpHasCur := gp.2 }

/-- The learning threshold global `gLearnThreshold` (0.55f). -/
def gLearnThreshold : ℚ := 11/20

/-- Scan key codes `k, k+1, ...` (at most `fuel` of them) for the first
just-pressed edge; helper giving the loop of `detectAnyKeyPress` a
first-match-wins shape amenable to induction. -/
def scanKeys (kd kdPrev : Nat → Bool) : Nat → Nat → Option Nat
  | _, 0 => none
  | k, fuel + 1 =>
    if kd k && !kdPrev k then some k else scanKeys kd kdPrev (k + 1) fuel

/-- Translation of `detectAnyKeyPress` (main.cpp lines 345-353): first key
code in `0..GLFW_KEY_LAST` that is down now and was up in the previous
snapshot. -/
def detectAnyKeyPress (kd kdPrev : Nat → Bool) : Option Nat :=
  scanKeys kd kdPrev 0 (glfwKeyLast + 1)

/-- The per-device part of `detectGamepadButtonPress` (main.cpp lines
355-372): first gamepad button index with a just-pressed edge, provided
the device is a present gamepad with both snapshots available. -/
def gpButtonEdgeAt (jc : JoyCache) : Option Nat :=
  if jc.present && jc.isGamepad && jc.gpHasCur && jc.gpHasPrev then
    (List.range (glfwGamepadButtonLast + 1)).find? fun b =>
      jc.gpCur.buttons.getD b false && !(jc.gpPrev.buttons.getD b false)
  else none

/-- Translation of `detectGamepadButtonPress`: scan joystick slots in
ascending order for the first gamepad button edge. -/
def detectGamepadButtonPress (joys : Nat → JoyCache) : Option (Nat × Nat) :=
  (List.range (glfwJoystickLast + 1)).findSome? fun jid =>
    (gpButtonEdgeAt (joys jid)).map fun b => (jid, b)

/-- The per-device part of `detectGamepadAxisMove` (main.cpp lines 374-398):
first gamepad axis whose previous magnitude was inside the 0.20 dead-zone
and whose current value exceeds `gLearnThreshold` in either direction,
together with the direction sign. -/
def gpAxisMoveAt (jc : JoyCache) : Option (Nat × Int) :=
  if jc.present && jc.isGamepad && jc.gpHasCur && jc.gpHasPrev then
    (List.range (glfwGamepadAxisLast + 1)).findSome? fun a =>
      let cur := jc.gpCur.axes.getD a 0
      let prev := jc.gpPrev.axes.getD a 0
      if |prev| < 1/5 then
        if cur > gLearnThreshold then some (a, 1)
        else if cur < -gLearnThreshold then some (a, -1)
        else none
      else none
  else none

/-- Translation of `detectGamepadAxisMove`: scan joystick slots in
ascending order for the first qualifying gamepad axis move. -/
def detectGamepadAxisMove (joys : Nat → JoyCache) : Option (Nat × Nat × Int) :=
  (List.range (glfwJoystickLast + 1)).findSome? fun jid =>
    (gpAxisMoveAt (joys jid)).map fun ad => (jid, ad.1, ad.2)

/-- The per-device part of `detectJoyButtonPress` (main.cpp lines 400-419):
first raw button index with a just-pressed edge; a length mismatch
between the previous and current arrays yields no edge. -/
def joyButtonEdgeAt (jc : JoyCache) : Option Nat :=
  if jc.present then
    if jc.btnPrev.length = jc.btnCur.length then
      (List.range jc.btnCur.length).find? fun b =>
        jc.btnCur.getD b false && !(jc.btnPrev.getD b false)
    else none
  else none

/-- Translation of `detectJoyButtonPress`: scan joystick slots in ascending
order for the first raw button edge. -/
def detectJoyButtonPress (joys : Nat → JoyCache) : Option (Nat × Nat) :=
  (List.range (glfwJoystickLast + 1)).findSome? fun jid =>
    (joyButtonEdgeAt (joys jid)).map fun b => (jid, b)

/-- The per-device part of `detectJoyAxisMove` (main.cpp lines 421-446):
same dead-zone / threshold rule as the gamepad axis detector, against the
raw axis arrays, with the length-mismatch guard. -/
def joyAxisMoveAt (jc : JoyCache) : Option (Nat × Int) :=
  if jc.present then
    if jc.axisPrev.length = jc.axisCur.length then
      (List.range jc.axisCur.length).findSome? fun a =>
        let cur := jc.axisCur.getD a 0
        let prev := jc.axisPrev.getD a 0
        if |prev| < 1/5 then
          if cur > gLearnThreshold then some (a, 1)
          else if cur < -gLearnThreshold then some (a, -1)
          else none
        else none
    else none
  else none

/-- Translation of `detectJoyAxisMove`: scan joystick slots in ascending
order for the first qualifying raw axis move. -/
def detectJoyAxisMove (joys : Nat → JoyCache) : Option (Nat × Nat × Int) :=
  (List.range (glfwJoystickLast + 1)).findSome? fun jid =>
    (joyAxisMoveAt (joys jid)).map fun ad => (jid, ad.1, ad.2)

/-- A `VirtualPad`: its array of six binding slots, indexed by the
`VKey` ordinal 0..5 (Up, Down, Left, Right, B1, B2). -/
structure VirtualPad where
  bind : List Binding
deriving DecidableEq, Repr

/-- A virtual pad with an empty slot array, used as the out-of-range
default when indexing the pad list. -/
def emptyPad : VirtualPad := ⟨[]⟩

/-- Read slot `k` of pad `p` (the source expression `gPad[p].bind[k]`). -/
def getSlot (pads : List VirtualPad) (p k : Nat) : Binding :=
  ((pads.getD p emptyPad).bind).getD k defaultBinding

/-- Write slot `k` of pad `p` (the source assignment `gPad[p].bind[k] = b`). -/
def setSlot (pads : List VirtualPad) (p k : Nat) (b : Binding) : List VirtualPad :=
  pads.set p ⟨(pads.getD p emptyPad).bind.set k b⟩

/-- The mutable application state touched by the learning/editing core:
the two virtual pads (`gPad`), the edit selection (`gEditPad`,
`gEditKey`) and the learning-armed flag (`gLearning`). -/
structure AppState where
  pads : List VirtualPad
  editPad : Nat := 0
  editKey : Nat := 0
  learning : Bool := false
deriving DecidableEq, Repr

/-- Translation of `setDefaultBindings` (main.cpp lines 327-343): WASD+J/K
for pad 0 and arrows+N/M for pad 1, all with threshold literal 0.0f. -/
def setDefaultBindings : List VirtualPad :=
  [⟨[{ type := BT_Key, jid := -1, code := 87, dir := 0, threshold := 0 },
     { type := BT_Key, jid := -1, code := 83, dir := 0, threshold := 0 },
     { type := BT_Key, jid := -1, code := 65, dir := 0, threshold := 0 },
     { type := BT_Key, jid := -1, code := 68, dir := 0, threshold := 0 },
     { type := BT_Key, jid := -1, code := 74, dir := 0, threshold := 0 },
     { type := BT_Key, jid := -1, code := 75, dir := 0, threshold := 0 }]⟩,
   ⟨[{ type := BT_Key, jid := -1, code := 265, dir := 0, threshold := 0 },
     { type := BT_Key, jid := -1, code := 264, dir := 0, threshold := 0 },
     { type := BT_Key, jid := -1, code := 263, dir := 0, threshold := 0 },
     { type := BT_Key, jid := -1, code := 262, dir := 0, threshold := 0 },
     { type := BT_Key, jid := -1, code := 78, dir := 0, threshold := 0 },
     { type := BT_Key, jid := -1, code := 77, dir := 0, threshold := 0 }]⟩]

/-- Translation of `clearBinding` (main.cpp lines 323-325): reset one slot
to `Binding{}`. -/
def clearBinding (pads : List VirtualPad) (padIdx k : Nat) : List VirtualPad :=
  setSlot pads padIdx k defaultBinding

/-- The binding the keyboard branch of `applyLearningIfTriggered`
materializes: `Binding b;` defaults with type, code and jid set. -/
def keyBindingOf (k : Nat) : Binding :=
  { defaultBinding with type := BT_Key, code := (k : Int), jid := -1 }

/-- The binding the gamepad-button branch materializes. -/
def gpButtonBindingOf (j c : Nat) : Binding :=
  { defaultBinding with type := BT_GamepadButton, jid := (j : Int), code := (c : Int) }

/-- The binding the gamepad-axis branch materializes: direction from the
detector and the runtime threshold literal 0.45f. -/
def gpAxisBindingOf (j a : Nat) (d : Int) : Binding :=
  { type := BT_GamepadAxisDir, jid := (j : Int), code := (a : Int), dir := d,
    threshold := 9/20 }

/-- The binding the raw-joystick-button branch materializes. -/
def joyButtonBindingOf (j c : Nat) : Binding :=
  { defaultBinding with type := BT_JoyButton, jid := (j : Int), code := (c : Int) }

/-- The binding the raw-joystick-axis branch materializes. -/
def joyAxisBindingOf (j a : Nat) (d : Int) : Binding :=
  { type := BT_JoyAxisDir, jid := (j : Int), code := (a : Int), dir := d,
    threshold := 9/20 }

/-- The common tail of every successful learning branch: write the
materialized binding into the selected `(gEditPad, gEditKey)` slot and
clear `gLearning`. -/
def writeLearned (st : AppState) (b : Binding) : AppState :=
  { st with pads := setSlot st.pads st.editPad st.editKey b, learning := false }

/-- Translation of `applyLearningIfTriggered` (main.cpp lines 448-505):
while armed, consult the detectors in priority order (keyboard, gamepad
button, gamepad axis, raw button, raw axis); on the first match write the
materialized binding into the selected slot and disarm. -/
def applyLearningIfTriggered (joys : Nat → JoyCache) (kd kdPrev : Nat → Bool)
    (st : AppState) : AppState :=
  if st.learning = false then st
  else
    match detectAnyKeyPress kd kdPrev with
    | some key => writeLearned st (keyBindingOf key)
    | none =>
      match detectGamepadButtonPress joys with
      | some jc => writeLearned st (gpButtonBindingOf jc.1 jc.2)
      | none =>
        match detectGamepadAxisMove joys with
        | some jad => writeLearned st (gpAxisBindingOf jad.1 jad.2.1 jad.2.2)
        | none =>
          match detectJoyButtonPress joys with
          | some jc => writeLearned st (joyButtonBindingOf jc.1 jc.2)
          | none =>
            match detectJoyAxisMove joys with
            | some jad => writeLearned st (joyAxisBindingOf jad.1 jad.2.1 jad.2.2)
            | none => st

/-- A token of the persisted `padmap.txt` byte stream, at the granularity
`fscanf` consumes it: a token that parses under `%d`, a fractional token
that parses only under `%f`, or a token that parses under neither. -/
inductive FileTok where
  | intTok (n : Int)
  | floatTok (q : ℚ)
  | badTok
deriving DecidableEq, Repr

/-- Result of scanning one token with `%d`. -/
def tokInt : FileTok → Option Int
  | .intTok n => some n
  | _ => none

/-- Result of scanning one token with `%f` (an integer token also parses). -/
def tokFloat : FileTok → Option ℚ
  | .intTok n => some (n : ℚ)
  | .floatTok q => some q
  | .badTok => none

/-- Rounding to six decimal places, as `fprintf "%.6f"` renders the
persisted threshold. -/
def round6 (q : ℚ) : ℚ := (⌊q * 1000000 + 1 / 2⌋ : ℚ) / 1000000

/-- The seven tokens `saveMappings` writes for pad `p`, slot `k`. -/
def recToks (pads : List VirtualPad) (p k : Nat) : List FileTok :=
  let b := getSlot pads p k
  [.intTok p, .intTok k, .intTok b.type, .intTok b.jid, .intTok b.code,
   .intTok b.dir, .floatTok (round6 b.threshold)]

/-- Translation of `saveMappings` (main.cpp lines 512-534): the token
stream written to `padmap.txt`, pad-major then control-minor. -/
def saveMappings (pads : List VirtualPad) : List FileTok :=
  recToks pads 0 0 ++ recToks pads 0 1 ++ recToks pads 0 2 ++
  recToks pads 0 3 ++ recToks pads 0 4 ++ recToks pads 0 5 ++
  recToks pads 1 0 ++ recToks pads 1 1 ++ recToks pads 1 2 ++
  recToks pads 1 3 ++ recToks pads 1 4 ++ recToks pads 1 5

/-- One record of the persisted file as `fscanf` fills it: six `%d`
fields and one `%f` field. -/
structure Rec7 where
  p : Int
  k : Int
  ty : Int
  jid : Int
  code : Int
  dir : Int
  th : ℚ
deriving DecidableEq, Repr

/-- Scan the token stream into records, stopping (as the `r != 7` break in
`loadMappings` does) at the first record whose tokens do not all parse. -/
def scanRecords : List FileTok → List Rec7
  | t1 :: t2 :: t3 :: t4 :: t5 :: t6 :: t7 :: rest =>
    match tokInt t1, tokInt t2, tokInt t3, tokInt t4, tokInt t5, tokInt t6,
        tokFloat t7 with
    | some p, some k, some ty, some jid, some code, some dir, some th =>
      ⟨p, k, ty, jid, code, dir, th⟩ :: scanRecords rest
    | _, _, _, _, _, _, _ => []
  | _ => []

/-- The loop body of `loadMappings` (main.cpp lines 550-563): skip records
whose pad index or control ordinal is out of range, otherwise install the
record verbatim (the integer tag is cast straight back to `BindType`). -/
def applyRec (pads : List VirtualPad) (r : Rec7) : List VirtualPad :=
  if r.p < 0 ∨ 2 ≤ r.p then pads
  else if r.k < 0 ∨ 6 ≤ r.k then pads
  else setSlot pads r.p.toNat r.k.toNat
    { type := r.ty, jid := r.jid, code := r.code, dir := r.dir, threshold := r.th }

/-- The reset `loadMappings` performs before parsing: all 12 slots at
`Binding{}`. -/
def resetPads : List VirtualPad :=
  [⟨List.replicate 6 defaultBinding⟩, ⟨List.replicate 6 defaultBinding⟩]

/-- Translation of `loadMappings` (main.cpp lines 536-567): when the file
is absent (`fopen` fails) the pads are untouched; otherwise all slots are
reset to `Binding{}` and the scanned records are applied in order. -/
def loadMappings (file : Option (List FileTok)) (pads : List VirtualPad) :
    List VirtualPad :=
  match file with
  | none => pads
  | some toks => (scanRecords toks).foldl applyRec resetPads

/-- The BACKSPACE hotkey branch (main.cpp lines 765-768): clear the
selected slot and force `gLearning` off. -/
def clearAction (st : AppState) : AppState :=
  { st with pads := clearBinding st.pads st.editPad st.editKey, learning := false }

/-- Translation of `keyPressedEdge` (main.cpp lines 83-86). -/
def keyPressedEdge (kd kdPrev : Nat → Bool) (k : Nat) : Bool :=
  if k > glfwKeyLast then false else kd k && !kdPrev k

/-- One conditional hotkey step: when the given key has a just-pressed
edge, apply the update to the (state, file) pair, else leave it alone. -/
def hkStep (kd kdPrev : Nat → Bool) (key : Nat)
    (f : AppState × Option (List FileTok) → AppState × Option (List FileTok))
    (x : AppState × Option (List FileTok)) : AppState × Option (List FileTok) :=
  if keyPressedEdge kd kdPrev key then f x else x

/-- Translation of `handleHotkeysOnce` (main.cpp lines 735-769), with the
`padmap.txt` contents threaded as an explicit optional token stream, as the
source's sequence of edge-conditional updates: F5 saves, F9 loads,
F1/F2/TAB select the pad, keys 1..6 select the control, SPACE arms
learning, BACKSPACE clears the selected slot and disarms. -/
def handleHotkeysOnce (kd kdPrev : Nat → Bool) (file : Option (List FileTok))
    (st : AppState) : AppState × Option (List FileTok) :=
  hkStep kd kdPrev 259 (fun x => (clearAction x.1, x.2))
    (hkStep kd kdPrev 32 (fun x => ({ x.1 with learning := true }, x.2))
      (hkStep kd kdPrev 54 (fun x => ({ x.1 with editKey := 5 }, x.2))
        (hkStep kd kdPrev 53 (fun x => ({ x.1 with editKey := 4 }, x.2))
          (hkStep kd kdPrev 52 (fun x => ({ x.1 with editKey := 3 }, x.2))
            (hkStep kd kdPrev 51 (fun x => ({ x.1 with editKey := 2 }, x.2))
              (hkStep kd kdPrev 50 (fun x => ({ x.1 with editKey := 1 }, x.2))
                (hkStep kd kdPrev 49 (fun x => ({ x.1 with editKey := 0 }, x.2))
                  (hkStep kd kdPrev 258 (fun x => ({ x.1 with editPad := 1 - x.1.editPad }, x.2))
                    (hkStep kd kdPrev 291 (fun x => ({ x.1 with editPad := 1 }, x.2))
                      (hkStep kd kdPrev 290 (fun x => ({ x.1 with editPad := 0 }, x.2))
                        (hkStep kd kdPrev 298
                          (fun x => ({ x.1 with pads := loadMappings x.2 x.1.pads }, x.2))
                          (hkStep kd kdPrev 294
                            (fun x => (x.1, some (saveMappings x.1.pads)))
                            (st, file)))))))))))))

/-- Encoding of one well-formed record as the seven tokens of its line. -/
def encodeRec (r : Rec7) : List FileTok :=
  [.intTok r.p, .intTok r.k, .intTok r.ty, .intTok r.jid, .intTok r.code,
   .intTok r.dir, .floatTok r.th]

/-- Encoding of a list of well-formed records as a token stream. -/
def encodeRecs (rs : List Rec7) : List FileTok :=
  rs.foldr (fun r acc => encodeRec r ++ acc) []

/-- A binding with its threshold rounded to the persisted 6-decimal
precision; what a save/load round trip reproduces. -/
def round6Binding (b : Binding) : Binding :=
  { b with threshold := round6 b.threshold }

/-- The specified Binding invariant: whenever the variant carries an axis,
its sign is -1 or +1 and its threshold lies strictly between 0 and 1. -/
def bindingInv (b : Binding) : Prop :=
  b.type = BT_GamepadAxisDir ∨ b.type = BT_JoyAxisDir →
    (b.dir = 1 ∨ b.dir = -1) ∧ 0 < b.threshold ∧ b.threshold < 1

/-- The Binding invariant over every slot of the pad array (out-of-range
indices read the default binding, which satisfies it vacuously). -/
def padsInv (pads : List VirtualPad) : Prop :=
  ∀ p k : Nat, bindingInv (getSlot pads p k)

/-- Shape invariant of the pad array as the C++ globals fix it:
two pads of six slots each. -/
def wfPads (pads : List VirtualPad) : Prop :=
  pads.length = 2 ∧ ∀ pad ∈ pads, pad.bind.length = 6

/-- Concrete keyboard snapshot: only the SPACE key (code 32) is down. -/
def kdSpace : Nat → Bool := fun k => k == 32

/-- Concrete keyboard snapshot: every key is up. -/
def kdAllUp : Nat → Bool := fun _ => false

/-- Concrete cache: a present gamepad whose button 3 has a just-pressed
edge and whose axes are all at rest. -/
def gpBtnCacheFix : JoyCache :=
  { present := true, isGamepad := true, gpHasPrev := true, gpHasCur := true,
    gpPrev := ⟨List.replicate 15 false, List.replicate 6 0⟩,
    gpCur := ⟨(List.replicate 15 false).set 3 true, List.replicate 6 0⟩ }

/-- Concrete cache: a present gamepad whose axis 0 moved from 0.0 to 0.80
in one tick, buttons untouched. -/
def gpAxisCacheFix : JoyCache :=
  { present := true, isGamepad := true, gpHasPrev := true, gpHasCur := true,
    gpPrev := ⟨List.replicate 15 false, List.replicate 6 0⟩,
    gpCur := ⟨List.replicate 15 false, (List.replicate 6 (0 : ℚ)).set 0 (4/5)⟩ }

/-- Joystick cache array with the given cache in slot 0 and the rest empty. -/
def joysSingle (jc : JoyCache) : Nat → JoyCache := fun j => if j = 0 then jc else {}

/-- Joystick cache array with every slot empty. -/
def joysIdle : Nat → JoyCache := fun _ => {}

/-- Concrete editing state: default pads, pad 1 / control B2 selected,
learning armed. -/
def stFix : AppState :=
  { pads := setDefaultBindings, editPad := 1, editKey := 5, learning := true }

/-- Concrete persisted stream: a malformed token followed by a well-formed
record binding pad 0 / control Up to Key(87). -/
def c3FailFile : List FileTok := FileTok.badTok :: encodeRec ⟨0, 0, 1, -1, 87, 0, 9/20⟩

/-- The binding the well-formed record of `c3FailFile` encodes. -/
def c3GoodBinding : Binding :=
  { type := BT_Key, jid := -1, code := 87, dir := 0, threshold := 9/20 }

/-- Concrete persisted stream: a single syntactically well-formed record
installing a gamepad-axis binding with direction 0 and threshold 1.5. -/
def c5File : List FileTok := encodeRec ⟨0, 0, 3, 0, 0, 0, 3/2⟩

/-- Concrete device: a present gamepad whose axis 0 currently reads 0.5. -/
def devFix : DeviceState :=
  { present := true, isGamepad := true,
    gpState := some ⟨List.replicate 15 false, [(1 : ℚ)/2, 0, 0, 0, 0, 0]⟩ }

/-- Concrete device world: key 87 down, `devFix` in joystick slot 0. -/
def worldFix : World :=
  { keyDown := fun k => k == 87, joy := fun j => if j = 0 then devFix else {} }

/-- Concrete axis binding on `devFix` axis 0 with threshold 0.40. -/
def bAxisFix : Binding :=
  { type := BT_GamepadAxisDir, jid := 0, code := 0, dir := 1, threshold := 2/5 }

attribute [local semireducible] Rat.mul Rat.inv Rat.add Rat.sub

set_option maxRecDepth 8000

/-- Reading an index of a list after setting another (or the same) index:
the written value is seen exactly when the indices agree and are in range. -/
theorem getD_set_eq_ite {α : Type _} (l : List α) (i j : Nat) (a d : α) :
    (l.set i a).getD j d = if i = j ∧ j < l.length then a else l.getD j d := by
  rw [List.getD_eq_getElem?_getD, List.getD_eq_getElem?_getD, List.getElem?_set]
  by_cases hij : i = j
  · subst hij
    by_cases hl : i < l.length
    · simp [hl]
    · rw [if_pos rfl, if_neg hl, if_neg (fun hc => hl hc.2),
        List.getElem?_eq_none (by omega)]
  · rw [if_neg hij, if_neg (fun hc => hij hc.1)]

/-- Characterization of `getSlot` after `setSlot`. -/
theorem getSlot_setSlot (pads : List VirtualPad) (p0 k0 p k : Nat) (b : Binding) :
    getSlot (setSlot pads p0 k0 b) p k =
      if p0 = p ∧ p < pads.length ∧ k0 = k ∧ k < (pads.getD p0 emptyPad).bind.length
      then b else getSlot pads p k := by
  unfold getSlot setSlot
  rw [getD_set_eq_ite]
  by_cases hp : p0 = p ∧ p < pads.length
  · obtain ⟨h1, h2⟩ := hp
    subst h1
    rw [if_pos ⟨rfl, h2⟩]
    dsimp only
    rw [getD_set_eq_ite]
    by_cases hk : k0 = k ∧ k < (pads.getD p0 emptyPad).bind.length
    · rw [if_pos hk, if_pos ⟨rfl, h2, hk.1, hk.2⟩]
    · rw [if_neg hk, if_neg (fun hc => hk ⟨hc.2.2.1, hc.2.2.2⟩)]
  · rw [if_neg hp, if_neg (fun hc => hp ⟨hc.1, hc.2.1⟩)]

/-- The selected slot reads back the written binding when in range. -/
theorem getSlot_setSlot_self {pads : List VirtualPad} {p k : Nat} (b : Binding)
    (hp : p < pads.length) (hk : k < (pads.getD p emptyPad).bind.length) :
    getSlot (setSlot pads p k b) p k = b := by
  rw [getSlot_setSlot, if_pos ⟨rfl, hp, rfl, hk⟩]

/-- Any other slot is untouched by `setSlot`. -/
theorem getSlot_setSlot_ne {pads : List VirtualPad} {p0 k0 p k : Nat} (b : Binding)
    (h : ¬(p0 = p ∧ k0 = k)) :
    getSlot (setSlot pads p0 k0 b) p k = getSlot pads p k := by
  rw [getSlot_setSlot, if_neg]
  intro hcon
  exact h ⟨hcon.1, hcon.2.2.1⟩

/-- Every slot after `setSlot` is the written binding or the old slot. -/
theorem getSlot_setSlot_cases (pads : List VirtualPad) (p0 k0 p k : Nat) (b : Binding) :
    getSlot (setSlot pads p0 k0 b) p k = b ∨
      getSlot (setSlot pads p0 k0 b) p k = getSlot pads p k := by
  rw [getSlot_setSlot]
  split
  · exact Or.inl rfl
  · exact Or.inr rfl

/-- In a well-formed pad array, each of the two pads has six slots. -/
theorem wfPads_bindLength {pads : List VirtualPad} (h : wfPads pads) {p : Nat}
    (hp : p < pads.length) : (pads.getD p emptyPad).bind.length = 6 := by
  apply h.2
  rw [List.getD_eq_getElem?_getD, List.getElem?_eq_getElem hp]
  exact List.getElem_mem hp

/-- `setSlot` preserves the pad-array shape. -/
theorem wfPads_setSlot {pads : List VirtualPad} (h : wfPads pads) (p k : Nat)
    (b : Binding) : wfPads (setSlot pads p k b) := by
  by_cases hp : p < pads.length
  · refine ⟨by simp [setSlot, h.1], ?_⟩
    intro pad hmem
    rcases List.mem_or_eq_of_mem_set hmem with hold | hnew
    · exact h.2 pad hold
    · subst hnew
      simpa using wfPads_bindLength h hp
  · unfold setSlot
    rw [List.set_eq_of_length_le (by omega)]
    exact h

/-- The reset pad array is well-formed. -/
theorem wfPads_resetPads : wfPads resetPads := by
  unfold wfPads resetPads
  decide

/-- The default pad array is well-formed. -/
theorem wfPads_setDefaultBindings : wfPads setDefaultBindings := by
  unfold wfPads setDefaultBindings
  decide

/-- Every slot of the reset pad array reads the default binding. -/
theorem getSlot_resetPads (p k : Nat) : getSlot resetPads p k = defaultBinding := by
  have hrep : ∀ k : Nat, (List.replicate 6 defaultBinding).getD k defaultBinding
      = defaultBinding := by
    intro k
    rw [List.getD_eq_getElem?_getD, List.getElem?_replicate]
    split <;> rfl
  rcases p with _ | _ | p
  · exact hrep k
  · exact hrep k
  · rfl

/-- Soundness and minimality of the keyboard scan: a hit is a just-pressed
edge at the first qualifying code at or after the start index. -/
theorem scanKeys_eq_some {kd kdPrev : Nat → Bool} {fuel s k : Nat}
    (h : scanKeys kd kdPrev s fuel = some k) :
    (kd k && !kdPrev k) = true ∧ s ≤ k ∧ k < s + fuel ∧
      ∀ j, s ≤ j → j < k → (kd j && !kdPrev j) = false := by
  induction fuel generalizing s with
  | zero => exact absurd h (by simp [scanKeys])
  | succ fuel ih =>
    unfold scanKeys at h
    by_cases hedge : (kd s && !kdPrev s) = true
    · rw [if_pos hedge] at h
      injection h with h
      subst h
      exact ⟨hedge, Nat.le_refl _, by omega, fun j h1 h2 => absurd h1 (by omega)⟩
    · rw [if_neg hedge] at h
      obtain ⟨he, hs, hlt, hmin⟩ := ih h
      refine ⟨he, by omega, by omega, fun j hj1 hj2 => ?_⟩
      rcases Nat.eq_or_lt_of_le hj1 with rfl | hj
      · exact Bool.eq_false_iff.mpr hedge
      · exact hmin j (by omega) hj2

/-- Completeness of the keyboard scan: an edge inside the scanned window
guarantees a hit. -/
theorem scanKeys_ne_none {kd kdPrev : Nat → Bool} {fuel s m : Nat}
    (h1 : s ≤ m) (h2 : m < s + fuel) (h3 : (kd m && !kdPrev m) = true) :
    scanKeys kd kdPrev s fuel ≠ none := by
  induction fuel generalizing s with
  | zero => omega
  | succ fuel ih =>
    unfold scanKeys
    by_cases hedge : (kd s && !kdPrev s) = true
    · simp [hedge]
    · rw [if_neg hedge]
      have hms : m ≠ s := fun hc => hedge (hc ▸ h3)
      exact ih (by omega) (by omega)

/-- A keyboard edge at a code within range guarantees `detectAnyKeyPress`
returns the least such code. -/
theorem detectAnyKeyPress_of_edge {kd kdPrev : Nat → Bool} {m : Nat}
    (hm : m ≤ glfwKeyLast) (h : (kd m && !kdPrev m) = true) :
    ∃ k, detectAnyKeyPress kd kdPrev = some k ∧ k ≤ m ∧
      (kd k && !kdPrev k) = true ∧ ∀ j, j < k → (kd j && !kdPrev j) = false := by
  have hne : detectAnyKeyPress kd kdPrev ≠ none :=
    scanKeys_ne_none (Nat.zero_le m) (by unfold glfwKeyLast at hm ⊢; omega) h
  obtain ⟨k, hk⟩ := Option.ne_none_iff_exists'.mp hne
  obtain ⟨he, -, -, hmin⟩ := scanKeys_eq_some hk
  refine ⟨k, hk, ?_, he, fun j hj => hmin j (Nat.zero_le j) hj⟩
  by_contra hlt
  exact absurd h (by simpa using hmin m (Nat.zero_le m) (by omega))

/-- Soundness of the per-device gamepad axis detector: a hit names an axis
that was inside the dead-zone and now exceeds the learning threshold, with
the matching sign. -/
theorem gpAxisMoveAt_sound {jc : JoyCache} {a : Nat} {d : Int}
    (h : gpAxisMoveAt jc = some (a, d)) :
    |jc.gpPrev.axes.getD a 0| < 1/5 ∧
      ((0 < jc.gpCur.axes.getD a 0 ∧ gLearnThreshold < jc.gpCur.axes.getD a 0 ∧ d = 1) ∨
       (jc.gpCur.axes.getD a 0 < 0 ∧ jc.gpCur.axes.getD a 0 < -gLearnThreshold ∧ d = -1)) := by
  unfold gpAxisMoveAt at h
  split at h
  · obtain ⟨a', -, hf⟩ := List.exists_of_findSome?_eq_some h
    dsimp only at hf
    split at hf
    · split at hf
      · injection hf with hf
        obtain ⟨rfl, rfl⟩ := Prod.mk.injEq .. ▸ (by exact ⟨congrArg Prod.fst hf, congrArg Prod.snd hf⟩ :
          (a', (1 : Int)).1 = a ∧ (a', (1 : Int)).2 = d)
        refine ⟨by assumption, Or.inl ⟨?_, by assumption, rfl⟩⟩
        calc (0 : ℚ) < gLearnThreshold := by norm_num [gLearnThreshold]
          _ < _ := by assumption
      · split at hf
        · injection hf with hf
          obtain ⟨rfl, rfl⟩ := Prod.mk.injEq .. ▸ (by exact ⟨congrArg Prod.fst hf, congrArg Prod.snd hf⟩ :
            (a', (-1 : Int)).1 = a ∧ (a', (-1 : Int)).2 = d)
          refine ⟨by assumption, Or.inr ⟨?_, by assumption, rfl⟩⟩
          calc jc.gpCur.axes.getD a' 0 < -gLearnThreshold := by assumption
            _ < 0 := by norm_num [gLearnThreshold]
        · exact absurd hf (by simp)
    · exact absurd hf (by simp)
  · exact absurd h (by simp)

/-- Soundness of the per-device raw axis detector, as for the gamepad one. -/
theorem joyAxisMoveAt_sound {jc : JoyCache} {a : Nat} {d : Int}
    (h : joyAxisMoveAt jc = some (a, d)) :
    |jc.axisPrev.getD a 0| < 1/5 ∧
      ((0 < jc.axisCur.getD a 0 ∧ gLearnThreshold < jc.axisCur.getD a 0 ∧ d = 1) ∨
       (jc.axisCur.getD a 0 < 0 ∧ jc.axisCur.getD a 0 < -gLearnThreshold ∧ d = -1)) := by
  unfold joyAxisMoveAt at h
  split at h
  · split at h
    · obtain ⟨a', -, hf⟩ := List.exists_of_findSome?_eq_some h
      dsimp only at hf
      split at hf
      · split at hf
        · injection hf with hf
          obtain ⟨rfl, rfl⟩ := Prod.mk.injEq .. ▸ (by exact ⟨congrArg Prod.fst hf, congrArg Prod.snd hf⟩ :
            (a', (1 : Int)).1 = a ∧ (a', (1 : Int)).2 = d)
          refine ⟨by assumption, Or.inl ⟨?_, by assumption, rfl⟩⟩
          calc (0 : ℚ) < gLearnThreshold := by norm_num [gLearnThreshold]
            _ < _ := by assumption
        · split at hf
          · injection hf with hf
            obtain ⟨rfl, rfl⟩ := Prod.mk.injEq .. ▸ (by exact ⟨congrArg Prod.fst hf, congrArg Prod.snd hf⟩ :
              (a', (-1 : Int)).1 = a ∧ (a', (-1 : Int)).2 = d)
            refine ⟨by assumption, Or.inr ⟨?_, by assumption, rfl⟩⟩
            calc jc.axisCur.getD a' 0 < -gLearnThreshold := by assumption
              _ < 0 := by norm_num [gLearnThreshold]
          · exact absurd hf (by simp)
      · exact absurd hf (by simp)
    · exact absurd h (by simp)
  · exact absurd h (by simp)

/-- The direction produced by the gamepad axis detector is a unit sign. -/
theorem detectGamepadAxisMove_dir {joys : Nat → JoyCache} {j a : Nat} {d : Int}
    (h : detectGamepadAxisMove joys = some (j, a, d)) : d = 1 ∨ d = -1 := by
  obtain ⟨jid, -, hf⟩ := List.exists_of_findSome?_eq_some h
  obtain ⟨⟨a', d'⟩, hat, heq⟩ := Option.map_eq_some'.mp hf
  have hd : d' = d := by
    have := congrArg (fun x => x.2.2) heq
    simpa using this
  subst hd
  rcases (gpAxisMoveAt_sound hat).2 with ⟨-, -, h1⟩ | ⟨-, -, h1⟩
  · exact Or.inl h1
  · exact Or.inr h1

/-- The direction produced by the raw axis detector is a unit sign. -/
theorem detectJoyAxisMove_dir {joys : Nat → JoyCache} {j a : Nat} {d : Int}
    (h : detectJoyAxisMove joys = some (j, a, d)) : d = 1 ∨ d = -1 := by
  obtain ⟨jid, -, hf⟩ := List.exists_of_findSome?_eq_some h
  obtain ⟨⟨a', d'⟩, hat, heq⟩ := Option.map_eq_some'.mp hf
  have hd : d' = d := by
    have := congrArg (fun x => x.2.2) heq
    simpa using this
  subst hd
  rcases (joyAxisMoveAt_sound hat).2 with ⟨-, -, h1⟩ | ⟨-, -, h1⟩
  · exact Or.inl h1
  · exact Or.inr h1

/-- Completeness of the per-device gamepad axis detector: on a present
gamepad with both snapshots cached, an axis inside the dead-zone last tick
and beyond the learning threshold now guarantees a hit. -/
theorem gpAxisMoveAt_complete {jc : JoyCache} (h1 : jc.present = true)
    (h2 : jc.isGamepad = true) (h3 : jc.gpHasCur = true) (h4 : jc.gpHasPrev = true)
    {a : Nat} (ha : a ≤ glfwGamepadAxisLast)
    (hdz : |jc.gpPrev.axes.getD a 0| < 1/5)
    (hth : gLearnThreshold < jc.gpCur.axes.getD a 0 ∨
      jc.gpCur.axes.getD a 0 < -gLearnThreshold) :
    gpAxisMoveAt jc ≠ none := by
  unfold gpAxisMoveAt
  rw [if_pos (by rw [h1, h2, h3, h4]; rfl)]
  intro hnone
  have hall := (List.findSome?_eq_none_iff).mp hnone a
    (List.mem_range.mpr (by unfold glfwGamepadAxisLast at ha ⊢; omega))
  dsimp only at hall
  rw [if_pos hdz] at hall
  rcases hth with hth | hth
  · rw [if_pos hth] at hall
    exact absurd hall (by simp)
  · rw [if_neg (by push_neg; unfold gLearnThreshold at hth ⊢; linarith)] at hall
    rw [if_pos hth] at hall
    exact absurd hall (by simp)

/-- The persisted 6-decimal rendering moves a threshold by at most half of
the last printed decimal place. -/
theorem round6_close (q : ℚ) : |round6 q - q| ≤ 1/2000000 := by
  unfold round6
  have h1 : ((⌊q * 1000000 + 1/2⌋ : ℤ) : ℚ) ≤ q * 1000000 + 1/2 := Int.floor_le _
  have h2 : q * 1000000 + 1/2 - 1 < ((⌊q * 1000000 + 1/2⌋ : ℤ) : ℚ) :=
    Int.sub_one_lt_floor _
  rw [abs_le]
  constructor
  · linarith
  · linarith

/-- The default binding satisfies the Binding invariant (vacuously). -/
theorem bindingInv_defaultBinding : bindingInv defaultBinding := by
  unfold bindingInv defaultBinding
  decide

/-- Key bindings satisfy the Binding invariant (vacuously). -/
theorem bindingInv_keyBindingOf (k : Nat) : bindingInv (keyBindingOf k) := by
  intro hax
  rcases hax with hax | hax <;>
    simp [keyBindingOf, defaultBinding, BT_Key, BT_GamepadAxisDir, BT_JoyAxisDir] at hax

/-- Gamepad button bindings satisfy the Binding invariant (vacuously). -/
theorem bindingInv_gpButtonBindingOf (j c : Nat) : bindingInv (gpButtonBindingOf j c) := by
  intro hax
  rcases hax with hax | hax <;>
    simp [gpButtonBindingOf, defaultBinding, BT_GamepadButton, BT_GamepadAxisDir,
      BT_JoyAxisDir] at hax

/-- Raw button bindings satisfy the Binding invariant (vacuously). -/
theorem bindingInv_joyButtonBindingOf (j c : Nat) : bindingInv (joyButtonBindingOf j c) := by
  intro hax
  rcases hax with hax | hax <;>
    simp [joyButtonBindingOf, defaultBinding, BT_JoyButton, BT_GamepadAxisDir,
      BT_JoyAxisDir] at hax

/-- Learned gamepad axis bindings satisfy the invariant when their
direction is a unit sign. -/
theorem bindingInv_gpAxisBindingOf (j a : Nat) {d : Int} (hd : d = 1 ∨ d = -1) :
    bindingInv (gpAxisBindingOf j a d) := by
  intro hax
  refine ⟨hd, by norm_num [gpAxisBindingOf], by norm_num [gpAxisBindingOf]⟩

/-- Learned raw axis bindings satisfy the invariant when their direction is
a unit sign. -/
theorem bindingInv_joyAxisBindingOf (j a : Nat) {d : Int} (hd : d = 1 ∨ d = -1) :
    bindingInv (joyAxisBindingOf j a d) := by
  intro hax
  refine ⟨hd, by norm_num [joyAxisBindingOf], by norm_num [joyAxisBindingOf]⟩

/-- Writing an invariant-respecting binding preserves the slotwise invariant. -/
theorem padsInv_setSlot {pads : List VirtualPad} (h : padsInv pads) {b : Binding}
    (hb : bindingInv b) (p0 k0 : Nat) : padsInv (setSlot pads p0 k0 b) := by
  intro p k
  rcases getSlot_setSlot_cases pads p0 k0 p k b with hc | hc
  · rw [hc]; exact hb
  · rw [hc]; exact h p k

/-- The reset pad array satisfies the slotwise invariant. -/
theorem padsInv_resetPads : padsInv resetPads := by
  intro p k
  rw [getSlot_resetPads]
  exact bindingInv_defaultBinding

/-- Applying any sequence of parsed records preserves the pad-array shape. -/
theorem wfPads_foldl_applyRec (rs : List Rec7) {pads : List VirtualPad}
    (h : wfPads pads) : wfPads (rs.foldl applyRec pads) := by
  induction rs generalizing pads with
  | nil => exact h
  | cons r rs ih =>
    refine ih ?_
    unfold applyRec
    split
    · exact h
    · split
      · exact h
      · exact wfPads_setSlot h _ _ _

/-- Loading preserves the pad-array shape. -/
theorem wfPads_loadMappings (file : Option (List FileTok)) {pads : List VirtualPad}
    (h : wfPads pads) : wfPads (loadMappings file pads) := by
  cases file with
  | none => exact h
  | some toks => exact wfPads_foldl_applyRec _ wfPads_resetPads

/-- Any property preserved by a hotkey step's update is preserved by the
step. -/
theorem hkStep_pres {kd kdPrev : Nat → Bool} {key : Nat}
    {f : AppState × Option (List FileTok) → AppState × Option (List FileTok)}
    {P : AppState × Option (List FileTok) → Prop}
    (h : ∀ y, P y → P (f y)) {x : AppState × Option (List FileTok)} (hx : P x) :
    P (hkStep kd kdPrev key f x) := by
  unfold hkStep
  split
  · exact h x hx
  · exact hx

/-- A hotkey step whose key has an edge applies its update. -/
theorem hkStep_pos {kd kdPrev : Nat → Bool} {key : Nat}
    {f : AppState × Option (List FileTok) → AppState × Option (List FileTok)}
    (h : keyPressedEdge kd kdPrev key = true) (x : AppState × Option (List FileTok)) :
    hkStep kd kdPrev key f x = f x := by
  unfold hkStep
  rw [h]
  rfl

/-- A hotkey step whose key has no edge is the identity. -/
theorem hkStep_neg {kd kdPrev : Nat → Bool} {key : Nat}
    {f : AppState × Option (List FileTok) → AppState × Option (List FileTok)}
    (h : keyPressedEdge kd kdPrev key = false) (x : AppState × Option (List FileTok)) :
    hkStep kd kdPrev key f x = x := by
  unfold hkStep
  rw [h]
  rfl

/-- With a SPACE edge and no BACKSPACE edge, the hotkey pass leaves
learning armed. -/
theorem handleHotkeys_learning {kd kdPrev : Nat → Bool} (file : Option (List FileTok))
    (st : AppState) (hsp : keyPressedEdge kd kdPrev 32 = true)
    (hbs : keyPressedEdge kd kdPrev 259 = false) :
    (handleHotkeysOnce kd kdPrev file st).1.learning = true := by
  unfold handleHotkeysOnce
  rw [hkStep_neg hbs, hkStep_pos hsp]

/-- A property closed under every kind of hotkey update is preserved by the
whole hotkey pass. -/
theorem handleHotkeys_pres {kd kdPrev : Nat → Bool}
    (P : AppState × Option (List FileTok) → Prop)
    (hsave : ∀ y, P y → P (y.1, some (saveMappings y.1.pads)))
    (hload : ∀ y, P y → P ({ y.1 with pads := loadMappings y.2 y.1.pads }, y.2))
    (hpad : ∀ y (e : Nat), e < 2 → P y → P ({ y.1 with editPad := e }, y.2))
    (hkey : ∀ y (e : Nat), e < 6 → P y → P ({ y.1 with editKey := e }, y.2))
    (hlearn : ∀ y, P y → P ({ y.1 with learning := true }, y.2))
    (hclear : ∀ y, P y → P (clearAction y.1, y.2))
    (file : Option (List FileTok)) (st : AppState) (hx : P (st, file)) :
    P (handleHotkeysOnce kd kdPrev file st) := by
  unfold handleHotkeysOnce
  refine hkStep_pres (fun y hy => hclear y hy)
    (hkStep_pres (fun y hy => hlearn y hy)
    (hkStep_pres (fun y hy => hkey y 5 (by omega) hy)
    (hkStep_pres (fun y hy => hkey y 4 (by omega) hy)
    (hkStep_pres (fun y hy => hkey y 3 (by omega) hy)
    (hkStep_pres (fun y hy => hkey y 2 (by omega) hy)
    (hkStep_pres (fun y hy => hkey y 1 (by omega) hy)
    (hkStep_pres (fun y hy => hkey y 0 (by omega) hy)
    (hkStep_pres (fun y hy => hpad y (1 - y.1.editPad) (by omega) hy)
    (hkStep_pres (fun y hy => hpad y 1 (by omega) hy)
    (hkStep_pres (fun y hy => hpad y 0 (by omega) hy)
    (hkStep_pres (fun y hy => hload y hy)
    (hkStep_pres (fun y hy => hsave y hy) hx))))))))))))

/-- The hotkey pass keeps the selected pad index in range. -/
theorem handleHotkeys_editPad_lt {kd kdPrev : Nat → Bool} (file : Option (List FileTok))
    (st : AppState) (hp : st.editPad < 2) :
    (handleHotkeysOnce kd kdPrev file st).1.editPad < 2 := by
  refine handleHotkeys_pres (fun x => x.1.editPad < 2) ?_ ?_ ?_ ?_ ?_ ?_ file st hp
  all_goals intro y
  · exact fun h => h
  · exact fun h => h
  · exact fun e he _ => he
  · exact fun e he h => h
  · exact fun h => h
  · exact fun h => h

/-- The hotkey pass keeps the selected control ordinal in range. -/
theorem handleHotkeys_editKey_lt {kd kdPrev : Nat → Bool} (file : Option (List FileTok))
    (st : AppState) (hk : st.editKey < 6) :
    (handleHotkeysOnce kd kdPrev file st).1.editKey < 6 := by
  refine handleHotkeys_pres (fun x => x.1.editKey < 6) ?_ ?_ ?_ ?_ ?_ ?_ file st hk
  all_goals intro y
  · exact fun h => h
  · exact fun h => h
  · exact fun e he h => h
  · exact fun e he _ => he
  · exact fun h => h
  · exact fun h => h

/-- The hotkey pass preserves the pad-array shape. -/
theorem handleHotkeys_wfPads {kd kdPrev : Nat → Bool} (file : Option (List FileTok))
    (st : AppState) (hwf : wfPads st.pads) :
    wfPads (handleHotkeysOnce kd kdPrev file st).1.pads := by
  refine handleHotkeys_pres (fun x => wfPads x.1.pads) ?_ ?_ ?_ ?_ ?_ ?_ file st hwf
  · exact fun y h => h
  · exact fun y h => wfPads_loadMappings _ h
  · exact fun y e he h => h
  · exact fun y e he h => h
  · exact fun y h => h
  · exact fun y h => wfPads_setSlot h _ _ _

/-- The selected slot reads back a learned binding in a well-formed state. -/
theorem getSlot_writeLearned {st : AppState} (b : Binding) (hwf : wfPads st.pads)
    (hp : st.editPad < 2) (hk : st.editKey < 6) :
    getSlot (writeLearned st b).pads st.editPad st.editKey = b := by
  have hp' : st.editPad < st.pads.length := by rw [hwf.1]; exact hp
  have hk' : st.editKey < (st.pads.getD st.editPad emptyPad).bind.length := by
    rw [wfPads_bindLength hwf hp']; exact hk
  exact getSlot_setSlot_self b hp' hk'

/-- Stage lemma: while armed, a keyboard hit is materialized immediately. -/
theorem applyLearning_key (joys : Nat → JoyCache) {kd kdPrev : Nat → Bool}
    {st : AppState} {k : Nat} (harm : st.learning = true)
    (hkey : detectAnyKeyPress kd kdPrev = some k) :
    applyLearningIfTriggered joys kd kdPrev st = writeLearned st (keyBindingOf k) := by
  unfold applyLearningIfTriggered
  rw [if_neg (by simp [harm]), hkey]

/-- Stage lemma: with no keyboard hit, a gamepad button hit is materialized. -/
theorem applyLearning_gpButton {joys : Nat → JoyCache} {kd kdPrev : Nat → Bool}
    {st : AppState} {j c : Nat} (harm : st.learning = true)
    (hkb : detectAnyKeyPress kd kdPrev = none)
    (hbtn : detectGamepadButtonPress joys = some (j, c)) :
    applyLearningIfTriggered joys kd kdPrev st = writeLearned st (gpButtonBindingOf j c) := by
  unfold applyLearningIfTriggered
  rw [if_neg (by simp [harm]), hkb, hbtn]

/-- Stage lemma: with no keyboard or gamepad-button hit, a gamepad axis hit
is materialized. -/
theorem applyLearning_gpAxis (joys : Nat → JoyCache) {kd kdPrev : Nat → Bool}
    {st : AppState} {j a : Nat} {d : Int} (harm : st.learning = true)
    (hkb : detectAnyKeyPress kd kdPrev = none)
    (hbtn : detectGamepadButtonPress joys = none)
    (hax : detectGamepadAxisMove joys = some (j, a, d)) :
    applyLearningIfTriggered joys kd kdPrev st = writeLearned st (gpAxisBindingOf j a d) := by
  unfold applyLearningIfTriggered
  rw [if_neg (by simp [harm]), hkb, hbtn, hax]

/-- Stage lemma: with no earlier-stage hit, a raw button hit is
materialized. -/
theorem applyLearning_joyButton {joys : Nat → JoyCache} {kd kdPrev : Nat → Bool}
    {st : AppState} {j c : Nat} (harm : st.learning = true)
    (hkb : detectAnyKeyPress kd kdPrev = none)
    (hbtn : detectGamepadButtonPress joys = none)
    (hax : detectGamepadAxisMove joys = none)
    (hjb : detectJoyButtonPress joys = some (j, c)) :
    applyLearningIfTriggered joys kd kdPrev st = writeLearned st (joyButtonBindingOf j c) := by
  unfold applyLearningIfTriggered
  rw [if_neg (by simp [harm]), hkb, hbtn, hax, hjb]

/-- Stage lemma: with no earlier-stage hit, a raw axis hit is materialized. -/
theorem applyLearning_joyAxis {joys : Nat → JoyCache} {kd kdPrev : Nat → Bool}
    {st : AppState} {j a : Nat} {d : Int} (harm : st.learning = true)
    (hkb : detectAnyKeyPress kd kdPrev = none)
    (hbtn : detectGamepadButtonPress joys = none)
    (hax : detectGamepadAxisMove joys = none)
    (hjb : detectJoyButtonPress joys = none)
    (hja : detectJoyAxisMove joys = some (j, a, d)) :
    applyLearningIfTriggered joys kd kdPrev st = writeLearned st (joyAxisBindingOf j a d) := by
  unfold applyLearningIfTriggered
  rw [if_neg (by simp [harm]), hkb, hbtn, hax, hjb, hja]

/-- Stage lemma: with no hit anywhere, the engine stays armed and idle. -/
theorem applyLearning_idle {joys : Nat → JoyCache} {kd kdPrev : Nat → Bool}
    {st : AppState}
    (hkb : detectAnyKeyPress kd kdPrev = none)
    (hbtn : detectGamepadButtonPress joys = none)
    (hax : detectGamepadAxisMove joys = none)
    (hjb : detectJoyButtonPress joys = none)
    (hja : detectJoyAxisMove joys = none) :
    applyLearningIfTriggered joys kd kdPrev st = st := by
  unfold applyLearningIfTriggered
  split
  · rfl
  · rw [hkb, hbtn, hax, hjb, hja]

/-- Stage lemma: the engine does nothing while unarmed. -/
theorem applyLearning_unarmed {joys : Nat → JoyCache} {kd kdPrev : Nat → Bool}
    {st : AppState} (h : st.learning = false) :
    applyLearningIfTriggered joys kd kdPrev st = st := by
  unfold applyLearningIfTriggered
  rw [if_pos h]

/-- C6: a device that was present in tick T and is absent in tick T+1 has
its cached button/axis arrays cleared and its previous-gamepad-snapshot
flag reset by the refresh, and none of the per-device learning edge
detectors reports an edge for it in tick T+1; likewise, a device whose
previous and current raw button or axis arrays differ in length yields no
raw edge. -/
theorem c6_disconnect_no_edges :
    (∀ (jc : JoyCache) (poll : JoyPoll), poll.present = false →
      (updateJoyCache jc poll).btnPrev = [] ∧
      (updateJoyCache jc poll).btnCur = [] ∧
      (updateJoyCache jc poll).axisPrev = [] ∧
      (updateJoyCache jc poll).axisCur = [] ∧
      (updateJoyCache jc poll).gpHasPrev = false ∧
      (updateJoyCache jc poll).gpHasCur = false ∧
      gpButtonEdgeAt (updateJoyCache jc poll) = none ∧
      gpAxisMoveAt (updateJoyCache jc poll) = none ∧
      joyButtonEdgeAt (updateJoyCache jc poll) = none ∧
      joyAxisMoveAt (updateJoyCache jc poll) = none) ∧
    (∀ jc : JoyCache, jc.btnPrev.length ≠ jc.btnCur.length →
      joyButtonEdgeAt jc = none) ∧
    (∀ jc : JoyCache, jc.axisPrev.length ≠ jc.axisCur.length →
      joyAxisMoveAt jc = none) := by
  refine ⟨?_, ?_, ?_⟩
  · intro jc poll hp
    unfold updateJoyCache
    rw [if_pos hp]
    refine ⟨rfl, rfl, rfl, rfl, rfl, rfl, ?_, ?_, ?_, ?_⟩
    · unfold gpButtonEdgeAt
      simp
    · unfold gpAxisMoveAt
      simp
    · unfold joyButtonEdgeAt
      simp
    · unfold joyAxisMoveAt
      simp
  · intro jc h
    unfold joyButtonEdgeAt
    split <;> rfl
  · intro jc h
    unfold joyAxisMoveAt
    split <;> rfl

/-- Shared leaf fact for C7: the boolean axis-direction test is antitone in
the threshold. -/
theorem axisLeaf_antitone {v t t' : ℚ} {dir : Int} (hle : t ≤ t')
    (h : (if dir < 0 then decide (v < -t')
          else decide (0 < dir) && decide (t' < v)) = true) :
    (if dir < 0 then decide (v < -t)
     else decide (0 < dir) && decide (t < v)) = true := by
  by_cases hdneg : dir < 0
  · rw [if_pos hdneg] at h ⊢
    have hv := of_decide_eq_true h
    exact decide_eq_true (by linarith)
  · rw [if_neg hdneg] at h ⊢
    rw [Bool.and_eq_true] at h
    obtain ⟨hd, hv⟩ := h
    rw [Bool.and_eq_true]
    exact ⟨hd, decide_eq_true (by linarith [of_decide_eq_true hv])⟩

/-- Witness for C6 at a concrete disconnection: the formerly present
gamepad cache refreshed against an absent poll keeps no snapshots and
yields no edges. -/
theorem c6_witness :
    (updateJoyCache gpBtnCacheFix {}).gpHasPrev = false ∧
    gpButtonEdgeAt (updateJoyCache gpBtnCacheFix {}) = none ∧
    joyButtonEdgeAt (updateJoyCache gpBtnCacheFix {}) = none := by
  obtain ⟨-, -, -, -, h5, -, h7, -, h9, -⟩ :=
    c6_disconnect_no_edges.1 gpBtnCacheFix {} rfl
  exact ⟨h5, h7, h9⟩

/-- C7: for a fixed axis value, axis-direction evaluation is antitone in
the binding's threshold: replacing the threshold by a larger one can only
change the result from true to false. -/
theorem c7_threshold_antitone (w : World) (b : Binding) (t t' : ℚ)
    (hax : b.type = BT_GamepadAxisDir ∨ b.type = BT_JoyAxisDir)
    (hle : t ≤ t')
    (h : sampleBinding w { b with threshold := t' } = true) :
    sampleBinding w { b with threshold := t } = true := by
  obtain ⟨ty, jid, code, dir, th⟩ := b
  dsimp only at hax h ⊢
  rcases hax with ht | ht <;> subst ht <;>
    simp only [sampleBinding, BT_None, BT_Key, BT_GamepadButton, BT_GamepadAxisDir,
      BT_JoyButton, BT_JoyAxisDir] at h ⊢ <;>
    norm_num at h ⊢
  · obtain ⟨h1, h2, h3, h4⟩ := h
    refine ⟨h1, h2, h3, ?_⟩
    rcases hst : (w.joy jid.toNat).gpState with - | st
    · rw [hst] at h4
      exact absurd h4 (by simp)
    · rw [hst] at h4
      dsimp only at h4
      rw [Bool.and_eq_true] at h4
      obtain ⟨ha, hleaf⟩ := h4
      dsimp only
      rw [Bool.and_eq_true]
      exact ⟨ha, axisLeaf_antitone hle hleaf⟩
  · obtain ⟨h1, h2, h4⟩ := h
    refine ⟨h1, h2, ?_⟩
    rcases hst : (w.joy jid.toNat).joyAxes with - | axs
    · rw [hst] at h4
      exact absurd h4 (by simp)
    · rw [hst] at h4
      dsimp only at h4
      rw [Bool.and_eq_true] at h4
      obtain ⟨ha, hleaf⟩ := h4
      dsimp only
      rw [Bool.and_eq_true]
      exact ⟨ha, axisLeaf_antitone hle hleaf⟩

/-- Witness for C7 at a concrete world: evaluation true at threshold 0.45
implies it stays true after lowering the threshold to 0.40. -/
theorem c7_witness : sampleBinding worldFix bAxisFix = true :=
  c7_threshold_antitone worldFix bAxisFix (2/5) (9/20) (Or.inl rfl)
    (by norm_num) (by decide)

/-- C8: a Key binding evaluates to exactly the keyboard snapshot's boolean
at its key code when the code is within the valid range and to false for
any out-of-range code, and a None binding evaluates to false against any
world. -/
theorem c8_key_none_evaluation :
    (∀ (w : World) (b : Binding), b.type = BT_Key →
      0 ≤ b.code → b.code ≤ (glfwKeyLast : Int) →
      sampleBinding w b = w.keyDown b.code.toNat) ∧
    (∀ (w : World) (b : Binding), b.type = BT_Key →
      (b.code < 0 ∨ b.code > (glfwKeyLast : Int)) →
      sampleBinding w b = false) ∧
    (∀ (w : World) (b : Binding), b.type = BT_None →
      sampleBinding w b = false) := by
  refine ⟨?_, ?_, ?_⟩
  · intro w b ht h0 h1
    unfold sampleBinding
    rw [ht]
    rw [if_neg (by norm_num [BT_Key, BT_None]), if_pos rfl, if_neg (by omega)]
  · intro w b ht hout
    unfold sampleBinding
    rw [ht]
    rw [if_neg (by norm_num [BT_Key, BT_None]), if_pos rfl, if_pos hout]
  · intro w b ht
    unfold sampleBinding
    rw [ht, if_pos rfl]

/-- Witness for C8: Key(87) reads the keyboard snapshot at code 87,
Key(400) is false, and the default None binding is false. -/
theorem c8_witness :
    sampleBinding worldFix c3GoodBinding = worldFix.keyDown 87 ∧
    sampleBinding worldFix (keyBindingOf 400) = false ∧
    sampleBinding worldFix defaultBinding = false :=
  ⟨c8_key_none_evaluation.1 worldFix c3GoodBinding rfl (by decide) (by decide),
   c8_key_none_evaluation.2.1 worldFix (keyBindingOf 400) rfl (Or.inr (by decide)),
   c8_key_none_evaluation.2.2 worldFix defaultBinding rfl⟩

/-- C9: the clear-binding action on the selected (pad, control) resets that
slot to the default None binding, forces learning off, leaves every other
slot untouched, keeps the selection, and the cleared slot evaluates false
against any device world. -/
theorem c9_clear_binding (st : AppState) (hwf : wfPads st.pads)
    (hp : st.editPad < 2) (hk : st.editKey < 6) :
    getSlot (clearAction st).pads st.editPad st.editKey = defaultBinding ∧
    defaultBinding.type = BT_None ∧
    (clearAction st).learning = false ∧
    (∀ w : World,
      sampleBinding w (getSlot (clearAction st).pads st.editPad st.editKey) = false) ∧
    (∀ p k : Nat, ¬(p = st.editPad ∧ k = st.editKey) →
      getSlot (clearAction st).pads p k = getSlot st.pads p k) ∧
    (clearAction st).editPad = st.editPad ∧ (clearAction st).editKey = st.editKey := by
  have hp' : st.editPad < st.pads.length := by rw [hwf.1]; exact hp
  have hk' : st.editKey < (st.pads.getD st.editPad emptyPad).bind.length := by
    rw [wfPads_bindLength hwf hp']; exact hk
  have hslot : getSlot (clearAction st).pads st.editPad st.editKey = defaultBinding := by
    unfold clearAction clearBinding
    exact getSlot_setSlot_self defaultBinding hp' hk'
  refine ⟨hslot, rfl, rfl, ?_, ?_, rfl, rfl⟩
  · intro w
    rw [hslot]
    rfl
  · intro p k hne
    unfold clearAction clearBinding
    exact getSlot_setSlot_ne defaultBinding (fun hc => hne ⟨hc.1.symm, hc.2.symm⟩)

/-- Witness for C9 at the concrete armed editing state: clearing slot
(1, B2) resets it, disarms, and leaves slot (0, 0) alone. -/
theorem c9_witness :
    getSlot (clearAction stFix).pads 1 5 = defaultBinding ∧
    (clearAction stFix).learning = false ∧
    getSlot (clearAction stFix).pads 0 0 = getSlot stFix.pads 0 0 := by
  obtain ⟨h1, -, h3, -, h5, -⟩ :=
    c9_clear_binding stFix (by unfold stFix; exact wfPads_setDefaultBindings)
      (by decide) (by decide)
  exact ⟨h1, h3, h5 0 0 (by decide)⟩
/-- C1: while learning is armed, if both a keyboard key and a
structured-gamepad button have just-pressed edges in the same tick, the
engine produces a Key binding for the keyboard key (not a gamepad-button
binding), writes it into the selected (pad, control) slot, and clears the
armed flag; and the stages are consulted in the fixed order keyboard,
gamepad buttons, gamepad axes, raw buttons, raw axes, first match winning. -/
theorem c1_learning_priority (joys : Nat → JoyCache) (kd kdPrev : Nat → Bool)
    (st : AppState) (k j c : Nat)
    (harm : st.learning = true)
    (hkey : detectAnyKeyPress kd kdPrev = some k)
    (_hgp : gpButtonEdgeAt (joys j) = some c) :
    (applyLearningIfTriggered joys kd kdPrev st = writeLearned st (keyBindingOf k) ∧
     (applyLearningIfTriggered joys kd kdPrev st).learning = false ∧
     (keyBindingOf k).type = BT_Key ∧
     (wfPads st.pads → st.editPad < 2 → st.editKey < 6 →
       getSlot (applyLearningIfTriggered joys kd kdPrev st).pads st.editPad st.editKey
         = keyBindingOf k)) ∧
    (∀ (joys2 : Nat → JoyCache) (kd2 kdPrev2 : Nat → Bool) (st2 : AppState),
      st2.learning = true →
      (∀ r, detectAnyKeyPress kd2 kdPrev2 = some r →
        applyLearningIfTriggered joys2 kd2 kdPrev2 st2
          = writeLearned st2 (keyBindingOf r)) ∧
      (detectAnyKeyPress kd2 kdPrev2 = none →
        (∀ jb cb, detectGamepadButtonPress joys2 = some (jb, cb) →
          applyLearningIfTriggered joys2 kd2 kdPrev2 st2
            = writeLearned st2 (gpButtonBindingOf jb cb)) ∧
        (detectGamepadButtonPress joys2 = none →
          (∀ jb ab db, detectGamepadAxisMove joys2 = some (jb, ab, db) →
            applyLearningIfTriggered joys2 kd2 kdPrev2 st2
              = writeLearned st2 (gpAxisBindingOf jb ab db)) ∧
          (detectGamepadAxisMove joys2 = none →
            (∀ jb cb, detectJoyButtonPress joys2 = some (jb, cb) →
              applyLearningIfTriggered joys2 kd2 kdPrev2 st2
                = writeLearned st2 (joyButtonBindingOf jb cb)) ∧
            (detectJoyButtonPress joys2 = none →
              (∀ jb ab db, detectJoyAxisMove joys2 = some (jb, ab, db) →
                applyLearningIfTriggered joys2 kd2 kdPrev2 st2
                  = writeLearned st2 (joyAxisBindingOf jb ab db)) ∧
              (detectJoyAxisMove joys2 = none →
                applyLearningIfTriggered joys2 kd2 kdPrev2 st2 = st2)))))) := by
  constructor
  · have he := applyLearning_key joys harm hkey
    refine ⟨he, by rw [he]; rfl, rfl, ?_⟩
    intro hwf hp hk
    rw [he]
    exact getSlot_writeLearned _ hwf hp hk
  · intro joys2 kd2 kdPrev2 st2 harm2
    refine ⟨fun r hr => applyLearning_key joys2 harm2 hr, fun hkb => ⟨?_, fun hbtn => ⟨?_, fun hax => ⟨?_, fun hjb => ⟨?_, fun hja => ?_⟩⟩⟩⟩⟩
    · exact fun jb cb hb => applyLearning_gpButton harm2 hkb hb
    · exact fun jb ab db hx => applyLearning_gpAxis joys2 harm2 hkb hbtn hx
    · exact fun jb cb hb => applyLearning_joyButton harm2 hkb hbtn hax hb
    · exact fun jb ab db hx => applyLearning_joyAxis harm2 hkb hbtn hax hjb hx
    · exact applyLearning_idle hkb hbtn hax hjb hja

/-- Witness for C1: SPACE (key 32) edge and gamepad button 3 edge in one
tick bind Key(32) into the selected slot (pad 1, B2) and disarm. -/
theorem c1_witness :
    applyLearningIfTriggered (joysSingle gpBtnCacheFix) kdSpace kdAllUp stFix
      = writeLearned stFix (keyBindingOf 32) ∧
    getSlot (applyLearningIfTriggered (joysSingle gpBtnCacheFix) kdSpace kdAllUp
      stFix).pads 1 5 = keyBindingOf 32 := by
  obtain ⟨⟨h1, -, -, h4⟩, -⟩ :=
    c1_learning_priority (joysSingle gpBtnCacheFix) kdSpace kdAllUp stFix 32 0 3
      rfl (by decide) (by decide)
  exact ⟨h1, h4 wfPads_setDefaultBindings (by decide) (by decide)⟩

/-- C2: while armed, with no keyboard or gamepad-button hit, a gamepad axis
whose previous magnitude was below the 0.20 dead-zone and whose current
value exceeds the 0.55 learning threshold in either direction is bound as
a GamepadAxisDirection binding with sign +1 exactly when the current value
is positive, runtime threshold 0.45, and the armed flag becomes false. -/
theorem c2_axis_learning (joys : Nat → JoyCache) (kd kdPrev : Nat → Bool)
    (st : AppState) (j a : Nat) (d : Int)
    (harm : st.learning = true)
    (hkb : detectAnyKeyPress kd kdPrev = none)
    (hbtn : detectGamepadButtonPress joys = none)
    (hax : detectGamepadAxisMove joys = some (j, a, d)) :
    (applyLearningIfTriggered joys kd kdPrev st = writeLearned st (gpAxisBindingOf j a d) ∧
     (applyLearningIfTriggered joys kd kdPrev st).learning = false ∧
     (gpAxisBindingOf j a d).type = BT_GamepadAxisDir ∧
     (gpAxisBindingOf j a d).threshold = 9/20) ∧
    (∀ (jc : JoyCache) (a2 : Nat) (d2 : Int), gpAxisMoveAt jc = some (a2, d2) →
      |jc.gpPrev.axes.getD a2 0| < 1/5 ∧
      ((0 < jc.gpCur.axes.getD a2 0 ∧ gLearnThreshold < jc.gpCur.axes.getD a2 0 ∧ d2 = 1) ∨
       (jc.gpCur.axes.getD a2 0 < 0 ∧ jc.gpCur.axes.getD a2 0 < -gLearnThreshold ∧
         d2 = -1))) ∧
    (∀ (jc : JoyCache) (a2 : Nat), jc.present = true → jc.isGamepad = true →
      jc.gpHasCur = true → jc.gpHasPrev = true → a2 ≤ glfwGamepadAxisLast →
      |jc.gpPrev.axes.getD a2 0| < 1/5 →
      (gLearnThreshold < jc.gpCur.axes.getD a2 0 ∨
        jc.gpCur.axes.getD a2 0 < -gLearnThreshold) →
      gpAxisMoveAt jc ≠ none) := by
  have he := applyLearning_gpAxis joys harm hkb hbtn hax
  exact ⟨⟨he, by rw [he]; rfl, rfl, rfl⟩, fun jc a2 d2 h => gpAxisMoveAt_sound h,
    fun jc a2 h1 h2 h3 h4 ha hdz hth =>
      gpAxisMoveAt_complete h1 h2 h3 h4 ha hdz hth⟩

/-- Witness for C2: on pad 1 / control B2, a gamepad axis moving from 0.0
to 0.80 in one tick is learned as GamepadAxisDirection(device 0, axis 0,
sign +1, threshold 0.45), and the armed flag clears. -/
theorem c2_witness :
    applyLearningIfTriggered (joysSingle gpAxisCacheFix) kdAllUp kdAllUp stFix
      = writeLearned stFix (gpAxisBindingOf 0 0 1) ∧
    getSlot (writeLearned stFix (gpAxisBindingOf 0 0 1)).pads 1 5
      = gpAxisBindingOf 0 0 1 ∧
    (writeLearned stFix (gpAxisBindingOf 0 0 1)).learning = false := by
  obtain ⟨⟨h1, -, -, -⟩, -⟩ :=
    c2_axis_learning (joysSingle gpAxisCacheFix) kdAllUp kdAllUp stFix 0 0 1
      rfl (by decide) (by decide) (by decide)
  exact ⟨h1, by decide, rfl⟩


/-- A malformed first token makes the record scanner stop immediately. -/
theorem scanRecords_badTok (junk : List FileTok) :
    scanRecords (FileTok.badTok :: junk) = [] := by
  rcases junk with - | ⟨t2, - | ⟨t3, - | ⟨t4, - | ⟨t5, - | ⟨t6, - | ⟨t7, rest⟩⟩⟩⟩⟩⟩ <;> rfl

/-- The scanner parses exactly the encoded records before a malformed
token and nothing after it. -/
theorem scanRecords_encodeRecs (rs : List Rec7) (junk : List FileTok) :
    scanRecords (encodeRecs rs ++ FileTok.badTok :: junk) = rs := by
  induction rs with
  | nil => simpa using scanRecords_badTok junk
  | cons r rs ih =>
    show scanRecords (encodeRec r ++ (encodeRecs rs ++ FileTok.badTok :: junk)) = r :: rs
    simp only [encodeRec, List.cons_append, List.nil_append]
    rw [scanRecords]
    simp only [tokInt, tokFloat]
    rw [ih]

/-- C3 counterexample: with a malformed token followed by a well-formed
record for slot (0, Up), the loader returns the fully reset pads and does
not apply the well-formed record, refuting the claim that well-formed
lines after a malformed line are still applied. -/
theorem c3_counterexample :
    loadMappings (some c3FailFile) setDefaultBindings = resetPads ∧
    getSlot (loadMappings (some c3FailFile) setDefaultBindings) 0 0 ≠ c3GoodBinding ∧
    c3GoodBinding
      = { type := BT_Key, jid := -1, code := 87, dir := 0, threshold := 9/20 } := by
  refine ⟨by decide, by decide, rfl⟩

/-- C3 amended: loading ignores the prior slots (it resets all 12 slots
first), applies each successfully parsed record in order, and skips
records with out-of-range pad or control indices without aborting; but at
the first malformed record parsing stops, so records before it stay
applied while well-formed records after it are not. -/
theorem c3_load_semantics :
    (∀ (toks : List FileTok) (pads pads2 : List VirtualPad),
      loadMappings (some toks) pads = loadMappings (some toks) pads2) ∧
    (∀ (rs : List Rec7) (junk : List FileTok) (pads : List VirtualPad),
      loadMappings (some (encodeRecs rs ++ FileTok.badTok :: junk)) pads
        = rs.foldl applyRec resetPads) ∧
    (∀ (pads : List VirtualPad) (r : Rec7),
      r.p < 0 ∨ 2 ≤ r.p ∨ r.k < 0 ∨ 6 ≤ r.k → applyRec pads r = pads) := by
  refine ⟨fun toks pads pads2 => rfl, ?_, ?_⟩
  · intro rs junk pads
    show List.foldl applyRec resetPads
        (scanRecords (encodeRecs rs ++ FileTok.badTok :: junk))
      = List.foldl applyRec resetPads rs
    rw [scanRecords_encodeRecs]
  · intro pads r hout
    unfold applyRec
    by_cases hp : r.p < 0 ∨ 2 ≤ r.p
    · rw [if_pos hp]
    · rw [if_neg hp, if_pos ?_]
      rcases hout with h | h | h | h
      · exact absurd (Or.inl h) hp
      · exact absurd (Or.inr h) hp
      · exact Or.inl h
      · exact Or.inr h

/-- Witness for the amended C3: one good record before a malformed token is
applied, and an out-of-range record leaves the pads untouched. -/
theorem c3_witness :
    loadMappings (some (encodeRecs [⟨0, 1, 1, -1, 88, 0, 0⟩] ++ FileTok.badTok :: []))
        setDefaultBindings
      = [⟨0, 1, 1, -1, 88, 0, 0⟩].foldl applyRec resetPads ∧
    applyRec resetPads ⟨5, 0, 1, -1, 87, 0, 9/20⟩ = resetPads :=
  ⟨c3_load_semantics.2.1 [⟨0, 1, 1, -1, 88, 0, 0⟩] [] setDefaultBindings,
   c3_load_semantics.2.2 resetPads ⟨5, 0, 1, -1, 87, 0, 9/20⟩ (by decide)⟩

/-- C4: saving any configuration of the 12 slots and loading it back
reproduces every slot up to rounding the threshold to the persisted
6-decimal precision: the tag, device id, code and direction are unchanged
and the threshold moves by at most half of the last printed decimal. -/
theorem c4_save_load_roundtrip (pads0 : List VirtualPad)
    (b00 b01 b02 b03 b04 b05 b10 b11 b12 b13 b14 b15 : Binding) :
    loadMappings (some (saveMappings
        [⟨[b00, b01, b02, b03, b04, b05]⟩, ⟨[b10, b11, b12, b13, b14, b15]⟩])) pads0 =
      [⟨[round6Binding b00, round6Binding b01, round6Binding b02, round6Binding b03,
         round6Binding b04, round6Binding b05]⟩,
       ⟨[round6Binding b10, round6Binding b11, round6Binding b12, round6Binding b13,
         round6Binding b14, round6Binding b15]⟩] ∧
    (∀ b : Binding, (round6Binding b).type = b.type ∧ (round6Binding b).jid = b.jid ∧
      (round6Binding b).code = b.code ∧ (round6Binding b).dir = b.dir ∧
      |(round6Binding b).threshold - b.threshold| ≤ 1/2000000) := by
  constructor
  · simp [loadMappings, saveMappings, recToks, getSlot, setSlot, emptyPad, scanRecords,
      tokInt, tokFloat, applyRec, resetPads, round6Binding, defaultBinding,
      List.getD_cons_zero, List.getD_cons_succ]
  · exact fun b => ⟨rfl, rfl, rfl, rfl, round6_close b.threshold⟩

/-- C5 counterexample: loading a syntactically well-formed record with
direction 0 and threshold 1.5 installs a GamepadAxisDirection binding that
violates the claimed invariant, so the invariant does not survive loading
from a file. -/
theorem c5_counterexample :
    (getSlot (loadMappings (some c5File) setDefaultBindings) 0 0).type
      = BT_GamepadAxisDir ∧
    ¬ bindingInv (getSlot (loadMappings (some c5File) setDefaultBindings) 0 0) := by
  constructor
  · decide
  · unfold bindingInv
    decide

/-- C5 amended: every slot satisfies the Binding invariant in the default
configuration, and the invariant is preserved by learning and by clearing;
loading a persisted file, however, installs records verbatim and can
violate it. -/
theorem c5_invariant_amended :
    padsInv setDefaultBindings ∧
    (∀ (pads : List VirtualPad) (p k : Nat), padsInv pads →
      padsInv (clearBinding pads p k)) ∧
    (∀ (joys : Nat → JoyCache) (kd kdPrev : Nat → Bool) (st : AppState),
      padsInv st.pads →
      padsInv (applyLearningIfTriggered joys kd kdPrev st).pads) := by
  refine ⟨?_, ?_, ?_⟩
  · intro p k
    rcases p with - | - | p
    · rcases k with - | - | - | - | - | - | k <;> first
        | (unfold bindingInv; decide)
        | exact bindingInv_defaultBinding
    · rcases k with - | - | - | - | - | - | k <;> first
        | (unfold bindingInv; decide)
        | exact bindingInv_defaultBinding
    · exact bindingInv_defaultBinding
  · intro pads p k h
    exact padsInv_setSlot h bindingInv_defaultBinding p k
  · intro joys kd kdPrev st h
    by_cases harm : st.learning = false
    · rw [applyLearning_unarmed harm]
      exact h
    · have harm2 : st.learning = true := by
        rcases Bool.eq_false_or_eq_true st.learning with hb | hb
        · exact hb
        · exact absurd hb harm
      rcases hkb : detectAnyKeyPress kd kdPrev with - | k
      · rcases hbtn : detectGamepadButtonPress joys with - | ⟨j, c⟩
        · rcases hax : detectGamepadAxisMove joys with - | ⟨j, a, d⟩
          · rcases hjb : detectJoyButtonPress joys with - | ⟨j, c⟩
            · rcases hja : detectJoyAxisMove joys with - | ⟨j, a, d⟩
              · rw [applyLearning_idle hkb hbtn hax hjb hja]
                exact h
              · rw [applyLearning_joyAxis harm2 hkb hbtn hax hjb hja]
                exact padsInv_setSlot h
                  (bindingInv_joyAxisBindingOf _ _ (detectJoyAxisMove_dir hja)) _ _
            · rw [applyLearning_joyButton harm2 hkb hbtn hax hjb]
              exact padsInv_setSlot h (bindingInv_joyButtonBindingOf _ _) _ _
          · rw [applyLearning_gpAxis joys harm2 hkb hbtn hax]
            exact padsInv_setSlot h
              (bindingInv_gpAxisBindingOf _ _ (detectGamepadAxisMove_dir hax)) _ _
        · rw [applyLearning_gpButton harm2 hkb hbtn]
          exact padsInv_setSlot h (bindingInv_gpButtonBindingOf _ _) _ _
      · rw [applyLearning_key joys harm2 hkb]
        exact padsInv_setSlot h (bindingInv_keyBindingOf _) _ _

/-- Witness for the amended C5: clearing a slot of the reset pads and a
concrete axis-learning tick both keep every slot inside the invariant. -/
theorem c5_witness :
    padsInv (clearBinding resetPads 0 0) ∧
    padsInv (applyLearningIfTriggered (joysSingle gpAxisCacheFix) kdAllUp kdAllUp
      stFix).pads :=
  ⟨c5_invariant_amended.2.1 resetPads 0 0 padsInv_resetPads,
   c5_invariant_amended.2.2 (joysSingle gpAxisCacheFix) kdAllUp kdAllUp stFix
     c5_invariant_amended.1⟩

/-- C10: in a tick whose keyboard snapshots carry a SPACE edge and no
BACKSPACE edge, the hotkey pass arms learning, and the learning engine,
running later in the same tick against the same snapshots, finds the
lowest key code with a just-pressed edge (at most the SPACE code 32),
writes a Key binding for it into the selected slot and disarms: the
arming key is never exempted from being captured as the learned input. -/
theorem c10_space_self_capture (joys : Nat → JoyCache) (kd kdPrev : Nat → Bool)
    (file : Option (List FileTok)) (st : AppState)
    (hwf : wfPads st.pads) (hp : st.editPad < 2) (hk : st.editKey < 6)
    (hsp : keyPressedEdge kd kdPrev 32 = true)
    (hbs : keyPressedEdge kd kdPrev 259 = false) :
    ∃ k, detectAnyKeyPress kd kdPrev = some k ∧ k ≤ 32 ∧
      (kd k && !kdPrev k) = true ∧ (∀ j, j < k → (kd j && !kdPrev j) = false) ∧
      (handleHotkeysOnce kd kdPrev file st).1.learning = true ∧
      applyLearningIfTriggered joys kd kdPrev (handleHotkeysOnce kd kdPrev file st).1
        = writeLearned (handleHotkeysOnce kd kdPrev file st).1 (keyBindingOf k) ∧
      (applyLearningIfTriggered joys kd kdPrev
        (handleHotkeysOnce kd kdPrev file st).1).learning = false ∧
      getSlot (applyLearningIfTriggered joys kd kdPrev
          (handleHotkeysOnce kd kdPrev file st).1).pads
          (handleHotkeysOnce kd kdPrev file st).1.editPad
          (handleHotkeysOnce kd kdPrev file st).1.editKey
        = keyBindingOf k := by
  have hedge : (kd 32 && !kdPrev 32) = true := by
    unfold keyPressedEdge at hsp
    rw [if_neg (by norm_num [glfwKeyLast])] at hsp
    exact hsp
  obtain ⟨k, hdet, hkle, hked, hkmin⟩ :=
    detectAnyKeyPress_of_edge (by norm_num [glfwKeyLast]) hedge
  have hlearn := handleHotkeys_learning file st hsp hbs
  have hwf1 : wfPads (handleHotkeysOnce kd kdPrev file st).1.pads :=
    handleHotkeys_wfPads file st hwf
  have hp1 : (handleHotkeysOnce kd kdPrev file st).1.editPad < 2 :=
    handleHotkeys_editPad_lt file st hp
  have hk1 : (handleHotkeysOnce kd kdPrev file st).1.editKey < 6 :=
    handleHotkeys_editKey_lt file st hk
  have happ := applyLearning_key joys hlearn hdet
  refine ⟨k, hdet, hkle, hked, hkmin, hlearn, happ, by rw [happ]; rfl, ?_⟩
  rw [happ]
  exact getSlot_writeLearned _ hwf1 hp1 hk1

/-- Witness for C10: with only SPACE down in the current snapshot and all
keys up previously, the tick arms learning and immediately binds Key(32)
into the selected slot, disarming. -/
theorem c10_witness :
    ∃ k, detectAnyKeyPress kdSpace kdAllUp = some k ∧ k ≤ 32 ∧
      (kdSpace k && !kdAllUp k) = true ∧
      (∀ j, j < k → (kdSpace j && !kdAllUp j) = false) ∧
      (handleHotkeysOnce kdSpace kdAllUp none stFix).1.learning = true ∧
      applyLearningIfTriggered joysIdle kdSpace kdAllUp
          (handleHotkeysOnce kdSpace kdAllUp none stFix).1
        = writeLearned (handleHotkeysOnce kdSpace kdAllUp none stFix).1
            (keyBindingOf k) ∧
      (applyLearningIfTriggered joysIdle kdSpace kdAllUp
        (handleHotkeysOnce kdSpace kdAllUp none stFix).1).learning = false ∧
      getSlot (applyLearningIfTriggered joysIdle kdSpace kdAllUp
          (handleHotkeysOnce kdSpace kdAllUp none stFix).1).pads
          (handleHotkeysOnce kdSpace kdAllUp none stFix).1.editPad
          (handleHotkeysOnce kdSpace kdAllUp none stFix).1.editKey
        = keyBindingOf k :=
  c10_space_self_capture joysIdle kdSpace kdAllUp none stFix
    wfPads_setDefaultBindings (by decide) (by decide) (by decide) (by decide)

end Padviz
